import Mathlib

/-!
Shallow embedding of `src/hello-myo.cpp` (the Myo armband gesture demo).

Two parts are modelled:

* the Orientation Decoder `DataCollector::onOrientationData` (quaternion →
  Euler angles → display values on a 0..18 scale), over the reals, since it
  uses `atan2` / `asin`;
* the Gesture/Home Tracker state held in `DataCollector` together with the
  `print()` step of the main loop, over the rationals (the C++ floats only
  ever undergo `+`, `-`, `abs` and comparisons there, so the embedding is
  exact on the literals appearing in the source).

Field names and function names follow the C++ source.
-/

namespace HelloMyo

/-! ### Orientation Decoder (`DataCollector::onOrientationData`, lines 41-60) -/

/-- `std::atan2(y, x)`: the argument of the complex number `x + y*i`,
in `(-π, π]`. -/
noncomputable def atan2 (y x : ℝ) : ℝ := Complex.arg { re := x, im := y }

/-- The clamped arcsine argument `max(-1.0f, min(1.0f, 2.0f * (w*y - z*x)))`
from line 52. -/
def pitchArg (w x y z : ℝ) : ℝ := max (-1) (min 1 (2 * (w * y - z * x)))

/-- `roll` (line 50). -/
noncomputable def rollAngle (w x y z : ℝ) : ℝ :=
  atan2 (2 * (w * x + y * z)) (1 - 2 * (x * x + y * y))

/-- `pitch` (line 52). -/
noncomputable def pitchAngle (w x y z : ℝ) : ℝ :=
  Real.arcsin (pitchArg w x y z)

/-- `yaw` (line 53). -/
noncomputable def yawAngle (w x y z : ℝ) : ℝ :=
  atan2 (2 * (w * z + x * y)) (1 - 2 * (y * y + z * z))

/-- `roll_w = (roll + M_PI) / (M_PI * 2.0f) * 18` (line 57). -/
noncomputable def roll_w_display (w x y z : ℝ) : ℝ :=
  (rollAngle w x y z + Real.pi) / (Real.pi * 2) * 18

/-- `pitch_w = (pitch + M_PI/2.0f) / M_PI * 18` (line 58). -/
noncomputable def pitch_w_display (w x y z : ℝ) : ℝ :=
  (pitchAngle w x y z + Real.pi / 2) / Real.pi * 18

/-- `yaw_w = (yaw + M_PI) / (M_PI * 2.0f) * 18` (line 59). -/
noncomputable def yaw_w_display (w x y z : ℝ) : ℝ :=
  (yawAngle w x y z + Real.pi) / (Real.pi * 2) * 18

/-! ### The letter table (`DataCollector::matchLetterToGesture`, lines 93-102)

`std::map<string,string>` is modelled as an association list;
`letterMap[k] = v` on an existing key overwrites, on a fresh key appends,
and `letterMap[gesture]` on a missing key yields the default-constructed
empty string. -/

/-- `m[k] = v`: overwrite the value when the key is present, append a new
entry otherwise (the observable effect of `std::map::operator[] =`). -/
def mapInsert (m : List (String × String)) (k v : String) :
    List (String × String) :=
  match m with
  | [] => [(k, v)]
  | (k0, v0) :: rest =>
    if k0 = k then (k0, v) :: rest else (k0, v0) :: mapInsert rest k v

/-- `m[k]` as an rvalue: the stored value when present, the
default-constructed `""` otherwise. -/
def mapLookup (m : List (String × String)) (k : String) : String :=
  match m with
  | [] => ""
  | (k0, v0) :: rest => if k0 = k then v0 else mapLookup rest k

/-- The `letterMap` of lines 97-100, built by the source's insertion
sequence (note `"rollpitch"` and `"rollpitchyaw"` are each assigned twice). -/
def letterMap : List (String × String) :=
  mapInsert (mapInsert (mapInsert (mapInsert (mapInsert (mapInsert
    (mapInsert (mapInsert (mapInsert (mapInsert (mapInsert (mapInsert
      [] "" " ")
      "pitchyawpitch" "a") "rollpitch" "b") "roll" "c")
      "rollpitch" "d") "rollpitchyaw" "e") "pitchpitchyaw" "f")
      "rollpitchyaw" "g") "pitchroll" "h") "yawpitchyaw" "i")
      "yawpitchroll" "j") "pitchyawyaw" "k"

/-- `DataCollector::matchLetterToGesture` (lines 93-102). -/
def matchLetterToGesture (gesture : String) : String :=
  mapLookup letterMap gesture

/-! ### Tracker state and the `print()` step -/

/-- The mutable fields of `DataCollector` that the tracker logic reads and
writes.  `currentPose` is kept as the pose's name string, since `print()`
only ever inspects `currentPose.toString()`. -/
structure CollectorState where
  onArm : Bool
  roll_w : ℚ
  pitch_w : ℚ
  yaw_w : ℚ
  currentPose : String
  home_roll : ℚ
  home_yaw : ℚ
  home_pitch : ℚ
  max_roll : ℚ
  max_yaw : ℚ
  max_pitch : ℚ
  gestures : String
  word : String
deriving DecidableEq, Repr

/-- The freshly constructed `DataCollector` (constructor, line 22, plus the
default member initializers of lines 238-241).  The C++ leaves `max_roll`,
`max_yaw`, `max_pitch` uninitialized; they are taken as `0` here. -/
def initState : CollectorState :=
  { onArm := false, roll_w := 0, pitch_w := 0, yaw_w := 0, currentPose := ""
    home_roll := -1, home_yaw := -1, home_pitch := -1
    max_roll := 0, max_yaw := 0, max_pitch := 0
    gestures := "", word := "" }

/-- `initState` after an arm-sync event (`onArmSync` sets `onArm = true`),
so that `print()` runs its pose logic. -/
def startState : CollectorState := { initState with onArm := true }

/-- `DataCollector::onOrientationData`, as seen by the tracker: the three
display values are overwritten. -/
def onOrientationData (s : CollectorState) (r p y : ℚ) : CollectorState :=
  { s with roll_w := r, pitch_w := p, yaw_w := y }

/-- `DataCollector::onPose` (line 66); unlock/vibration side effects are
external. -/
def onPose (s : CollectorState) (pose : String) : CollectorState :=
  { s with currentPose := pose }

/-- `DataCollector::epsilonCompare` (lines 222-226). -/
def epsilonCompare (var1 var2 err : ℚ) : Bool :=
  !(decide (var2 < var1 - err) || decide (var2 > var1 + err))

/-- The three dominant-axis `if`s plus the accumulator reset of the
"home reached" branch (lines 184-198). -/
def homeReachedBranch (s : CollectorState) : CollectorState :=
  let g1 := if s.max_yaw > s.max_roll ∧ s.max_yaw > s.max_pitch
            then s.gestures ++ "yaw" else s.gestures
  let g2 := if s.max_roll > s.max_yaw ∧ s.max_roll > s.max_pitch
            then g1 ++ "roll" else g1
  let g3 := if s.max_pitch > s.max_roll ∧ s.max_pitch > s.max_yaw
            then g2 ++ "pitch" else g2
  { s with gestures := g3, max_roll := 0, max_yaw := 0, max_pitch := 0 }

/-- The deviation-accumulator updates of lines 202-210, including the
`abs(yaw_w - home_yaw) != 17` exclusion. -/
def accumUpdate (s : CollectorState) : CollectorState :=
  let s1 := if |s.roll_w - s.home_roll| > s.max_roll
            then { s with max_roll := |s.roll_w - s.home_roll| } else s
  let s2 := if |s1.yaw_w - s1.home_yaw| > s1.max_yaw ∧
               |s1.yaw_w - s1.home_yaw| ≠ 17
            then { s1 with max_yaw := |s1.yaw_w - s1.home_yaw| } else s1
  let s3 := if |s2.pitch_w - s2.home_pitch| > s2.max_pitch
            then { s2 with max_pitch := |s2.pitch_w - s2.home_pitch| } else s2
  s3

/-- `DataCollector::print` (lines 129-220), restricted to its state effect.
The returned `Bool` records whether the `"home reached"` branch fired (the
program prints `"home reached"` exactly then).  The `fingersSpread` /
`waveOut` branches only spawn external processes and leave the state
unchanged; the busy-wait cooldowns are real-time effects with no state. -/
def print (s : CollectorState) : CollectorState × Bool :=
  if s.onArm then
    if s.currentPose = "fist" then
      ({ s with
          home_roll := s.roll_w, home_yaw := s.yaw_w, home_pitch := s.pitch_w
          gestures := ""
          word := s.word ++ matchLetterToGesture s.gestures }, false)
    else if s.currentPose = "fingersSpread" then (s, false)
    else if s.currentPose = "waveOut" then (s, false)
    else
      let fired := epsilonCompare s.roll_w s.home_roll (7/10) &&
                   epsilonCompare s.pitch_w s.home_pitch (7/10) &&
                   epsilonCompare s.yaw_w s.home_yaw (7/10)
      let s1 := if fired then homeReachedBranch s else s
      (accumUpdate s1, fired)
  else (s, false)

/-- One iteration of the main loop (lines 278-286) in which the event pump
delivered orientation data and a pose classification, followed by
`collector.print()`. -/
def update (s : CollectorState) (pose : String) (r p y : ℚ) :
    CollectorState × Bool :=
  print (onPose (onOrientationData s r p y) pose)

/-- Run a sequence of main-loop iterations; each list entry is
`(pose name, roll_w, pitch_w, yaw_w)`. -/
def run (s : CollectorState) :
    List (String × ℚ × ℚ × ℚ) → CollectorState
  | [] => s
  | (p, r, pi, y) :: rest => run (update s p r pi y).1 rest

/-- The `"home reached"` flags along a run, one per iteration. -/
def firedRun (s : CollectorState) :
    List (String × ℚ × ℚ × ℚ) → List Bool
  | [] => []
  | (p, r, pi, y) :: rest =>
    (update s p r pi y).2 :: firedRun (update s p r pi y).1 rest

/-! ### Concrete inputs used to instantiate the theorems below -/

/-- The pose sequence `[fist, (roll deviates, then home reached), fist]`,
all other display values held at the neutral 9. -/
def fistRollFist : List (String × ℚ × ℚ × ℚ) :=
  [("fist", 9, 9, 9), ("rest", 12, 9, 9), ("rest", 9, 9, 9), ("fist", 9, 9, 9)]

/-- A fist followed by two in-tolerance updates at the home orientation. -/
def fistThenHold : List (String × ℚ × ℚ × ℚ) :=
  [("fist", 9, 9, 9), ("rest", 9, 9, 9), ("rest", 9, 9, 9)]

/-- A fist followed by one update 0.5 display units off home on roll. -/
def fistThenNear : List (String × ℚ × ℚ × ℚ) :=
  [("fist", 9, 9, 9), ("rest", 19/2, 9, 9)]

/-- Two consecutive updates in which the pose classification stays `fist`. -/
def fistHeld : List (String × ℚ × ℚ × ℚ) :=
  [("fist", 9, 9, 9), ("fist", 10, 9, 9)]

/-- A short fist-free run with in-range display values. -/
def noFistTrace : List (String × ℚ × ℚ × ℚ) :=
  [("rest", 9, 9, 9), ("waveIn", 0, 18, 5)]

/-- A state in which `print` fires `"home reached"` (orientation at home)
with `max_roll` the strict maximum of the three accumulators. -/
def wsFired : CollectorState :=
  { onArm := true, roll_w := 9, pitch_w := 9, yaw_w := 9, currentPose := "rest"
    home_roll := 9, home_yaw := 9, home_pitch := 9
    max_roll := 3, max_yaw := 2, max_pitch := 1
    gestures := "", word := "" }

/-- A state whose yaw deviation from home is exactly 17 display units. -/
def wsYaw17 : CollectorState :=
  { onArm := true, roll_w := 2, pitch_w := 1, yaw_w := 17, currentPose := "rest"
    home_roll := 0, home_yaw := 0, home_pitch := 0
    max_roll := 0, max_yaw := 0, max_pitch := 0
    gestures := "", word := "" }

/-- A fist-pose state whose gesture buffer holds a string that is not a key
of the letter table. -/
def wsUnknown : CollectorState :=
  { onArm := true, roll_w := 9, pitch_w := 9, yaw_w := 9, currentPose := "fist"
    home_roll := 9, home_yaw := 9, home_pitch := 9
    max_roll := 0, max_yaw := 0, max_pitch := 0
    gestures := "yawroll", word := "ab" }

end HelloMyo

/-! ## Theorems -/

namespace HelloMyo

/-- `epsilonCompare` accepts exactly the values within `err` of each other. -/
theorem epsilonCompare_true_iff (var1 var2 err : ℚ) :
    epsilonCompare var1 var2 err = true ↔ |var1 - var2| ≤ err := by
  simp only [epsilonCompare, Bool.not_eq_true', Bool.or_eq_false_iff,
    decide_eq_false_iff_not, not_lt, abs_sub_le_iff]
  constructor
  · rintro ⟨h1, h2⟩
    exact ⟨by linarith, by linarith⟩
  · rintro ⟨h1, h2⟩
    exact ⟨by linarith, by linarith⟩

/-- `accumUpdate` only rewrites the three accumulator fields, each to the
absolute deviation when that deviation exceeds the stored maximum (with the
yaw-17 exclusion). -/
theorem accumUpdate_def (s : CollectorState) :
    accumUpdate s =
      { s with
        max_roll := if |s.roll_w - s.home_roll| > s.max_roll
                    then |s.roll_w - s.home_roll| else s.max_roll
        max_yaw := if |s.yaw_w - s.home_yaw| > s.max_yaw ∧
                      |s.yaw_w - s.home_yaw| ≠ 17
                   then |s.yaw_w - s.home_yaw| else s.max_yaw
        max_pitch := if |s.pitch_w - s.home_pitch| > s.max_pitch
                     then |s.pitch_w - s.home_pitch| else s.max_pitch } := by
  simp only [accumUpdate]
  by_cases h1 : |s.roll_w - s.home_roll| > s.max_roll <;>
    by_cases h2 : |s.yaw_w - s.home_yaw| > s.max_yaw ∧
      |s.yaw_w - s.home_yaw| ≠ 17 <;>
      by_cases h3 : |s.pitch_w - s.home_pitch| > s.max_pitch <;>
        simp [h1, h2, h3]

@[simp]
theorem accumUpdate_gestures (s : CollectorState) :
    (accumUpdate s).gestures = s.gestures := by rw [accumUpdate_def]

@[simp]
theorem accumUpdate_word (s : CollectorState) :
    (accumUpdate s).word = s.word := by rw [accumUpdate_def]

@[simp]
theorem accumUpdate_home_roll (s : CollectorState) :
    (accumUpdate s).home_roll = s.home_roll := by rw [accumUpdate_def]

@[simp]
theorem accumUpdate_home_yaw (s : CollectorState) :
    (accumUpdate s).home_yaw = s.home_yaw := by rw [accumUpdate_def]

@[simp]
theorem accumUpdate_home_pitch (s : CollectorState) :
    (accumUpdate s).home_pitch = s.home_pitch := by rw [accumUpdate_def]

@[simp]
theorem accumUpdate_onArm (s : CollectorState) :
    (accumUpdate s).onArm = s.onArm := by rw [accumUpdate_def]

@[simp]
theorem accumUpdate_currentPose (s : CollectorState) :
    (accumUpdate s).currentPose = s.currentPose := by rw [accumUpdate_def]

@[simp]
theorem accumUpdate_roll_w (s : CollectorState) :
    (accumUpdate s).roll_w = s.roll_w := by rw [accumUpdate_def]

@[simp]
theorem accumUpdate_pitch_w (s : CollectorState) :
    (accumUpdate s).pitch_w = s.pitch_w := by rw [accumUpdate_def]

@[simp]
theorem accumUpdate_yaw_w (s : CollectorState) :
    (accumUpdate s).yaw_w = s.yaw_w := by rw [accumUpdate_def]

@[simp]
theorem homeReachedBranch_home_roll (s : CollectorState) :
    (homeReachedBranch s).home_roll = s.home_roll := rfl

@[simp]
theorem homeReachedBranch_home_yaw (s : CollectorState) :
    (homeReachedBranch s).home_yaw = s.home_yaw := rfl

@[simp]
theorem homeReachedBranch_home_pitch (s : CollectorState) :
    (homeReachedBranch s).home_pitch = s.home_pitch := rfl

@[simp]
theorem homeReachedBranch_onArm (s : CollectorState) :
    (homeReachedBranch s).onArm = s.onArm := rfl

@[simp]
theorem homeReachedBranch_currentPose (s : CollectorState) :
    (homeReachedBranch s).currentPose = s.currentPose := rfl

@[simp]
theorem homeReachedBranch_roll_w (s : CollectorState) :
    (homeReachedBranch s).roll_w = s.roll_w := rfl

@[simp]
theorem homeReachedBranch_pitch_w (s : CollectorState) :
    (homeReachedBranch s).pitch_w = s.pitch_w := rfl

@[simp]
theorem homeReachedBranch_yaw_w (s : CollectorState) :
    (homeReachedBranch s).yaw_w = s.yaw_w := rfl

@[simp]
theorem homeReachedBranch_word (s : CollectorState) :
    (homeReachedBranch s).word = s.word := rfl

@[simp]
theorem homeReachedBranch_max_roll (s : CollectorState) :
    (homeReachedBranch s).max_roll = 0 := rfl

@[simp]
theorem homeReachedBranch_max_yaw (s : CollectorState) :
    (homeReachedBranch s).max_yaw = 0 := rfl

@[simp]
theorem homeReachedBranch_max_pitch (s : CollectorState) :
    (homeReachedBranch s).max_pitch = 0 := rfl

/-- `print` in the fist branch. -/
theorem print_fist (s : CollectorState) (hArm : s.onArm = true)
    (hp : s.currentPose = "fist") :
    print s =
      ({ s with
          home_roll := s.roll_w, home_yaw := s.yaw_w, home_pitch := s.pitch_w
          gestures := ""
          word := s.word ++ matchLetterToGesture s.gestures }, false) := by
  unfold print
  rw [if_pos hArm, if_pos hp]

/-- `print` in the home-tracking branch. -/
theorem print_else (s : CollectorState) (hArm : s.onArm = true)
    (h1 : s.currentPose ≠ "fist") (h2 : s.currentPose ≠ "fingersSpread")
    (h3 : s.currentPose ≠ "waveOut") :
    print s =
      (accumUpdate
        (if epsilonCompare s.roll_w s.home_roll (7/10) &&
            epsilonCompare s.pitch_w s.home_pitch (7/10) &&
            epsilonCompare s.yaw_w s.home_yaw (7/10)
         then homeReachedBranch s else s),
       epsilonCompare s.roll_w s.home_roll (7/10) &&
       epsilonCompare s.pitch_w s.home_pitch (7/10) &&
       epsilonCompare s.yaw_w s.home_yaw (7/10)) := by
  unfold print
  rw [if_pos hArm, if_neg h1, if_neg h2, if_neg h3]

/-- When `print` reports `"home reached"`, the state was in the
home-tracking branch with all three tolerance checks passing, and the
result is the reset branch followed by the accumulator update. -/
theorem fired_cases (s : CollectorState) (h : (print s).2 = true) :
    s.onArm = true ∧ s.currentPose ≠ "fist" ∧
    s.currentPose ≠ "fingersSpread" ∧ s.currentPose ≠ "waveOut" ∧
    (epsilonCompare s.roll_w s.home_roll (7/10) &&
     epsilonCompare s.pitch_w s.home_pitch (7/10) &&
     epsilonCompare s.yaw_w s.home_yaw (7/10)) = true ∧
    print s = (accumUpdate (homeReachedBranch s), true) := by
  by_cases hArm : s.onArm = true
  case neg =>
    unfold print at h
    rw [if_neg hArm] at h
    simp at h
  by_cases hp1 : s.currentPose = "fist"
  case pos =>
    rw [print_fist s hArm hp1] at h
    simp at h
  by_cases hp2 : s.currentPose = "fingersSpread"
  case pos =>
    unfold print at h
    rw [if_pos hArm, if_neg hp1, if_pos hp2] at h
    simp at h
  by_cases hp3 : s.currentPose = "waveOut"
  case pos =>
    unfold print at h
    rw [if_pos hArm, if_neg hp1, if_neg hp2, if_pos hp3] at h
    simp at h
  have hpe := print_else s hArm hp1 hp2 hp3
  rw [hpe] at h
  simp only at h
  refine ⟨hArm, hp1, hp2, hp3, h, ?_⟩
  rw [hpe, if_pos h, h]

/-- Claim C7: later duplicate-key insertions into the letter table overwrite
earlier ones: `"rollpitch"` maps to `"d"` (not `"b"`) and `"rollpitchyaw"`
maps to `"g"` (not `"e"`). -/
theorem letterTable_overwrites :
    matchLetterToGesture "rollpitch" = "d" ∧
    matchLetterToGesture "rollpitchyaw" = "g" ∧
    "d" ≠ "b" ∧ "g" ≠ "e" := by
  refine ⟨by with_unfolding_all decide, by with_unfolding_all decide, by with_unfolding_all decide, by with_unfolding_all decide⟩

/-- Claim C1, counterexample: on the pose sequence
`[fist, roll-deviation, home, fist]` the final Word is not `"c"` — the first
fist already committed the default single space for the empty buffer. -/
theorem word_after_fistRollFist_ne_c :
    (run startState fistRollFist).word ≠ "c" := by
  with_unfolding_all decide

/-- Claim C1, amended: on the pose sequence `[fist, roll-deviation, home,
fist]` with the table mapping `"roll"` to `"c"`, the final Word is `" c"`:
the space committed by the first fist (empty Gesture Buffer) followed by the
`"c"` committed by the second. -/
theorem word_after_fistRollFist :
    (run startState fistRollFist).word = " c" := by
  with_unfolding_all decide

/-- Claim C4, counterexample: after a fist sets home, two consecutive
updates that both stay within tolerance of home each fire `"home reached"` —
the branch does fire repeatedly on consecutive in-tolerance updates. -/
theorem fires_on_consecutive_updates :
    firedRun startState fistThenHold = [false, true, true] := by
  with_unfolding_all decide

/-- Claim C5, counterexample: on the second update of `fistThenNear` the
`"home reached"` branch fires (deviation 0.5 is within tolerance), yet at
the end of that update `max_roll` is `1/2`, not `0`: the accumulator update
of lines 202-210 runs after the reset in the same `print` call. -/
theorem accumulator_not_zero_after_fire :
    firedRun startState fistThenNear = [false, true] ∧
    (run startState fistThenNear).max_roll = 1/2 ∧
    (run startState fistThenNear).max_roll ≠ 0 := by
  refine ⟨by with_unfolding_all decide, by with_unfolding_all decide, by with_unfolding_all decide⟩

/-- Claim C9, counterexample: holding the fist pose over two consecutive
updates re-captures Home Reference on the second update (home roll becomes
10, the second update's orientation) and commits the default space twice —
capture is not limited to transitions into the fist pose. -/
theorem home_recaptured_while_fist_held :
    (run startState fistHeld).home_roll = 10 ∧
    (run startState fistHeld).home_roll ≠ 9 ∧
    (run startState fistHeld).word = "  " := by
  refine ⟨by with_unfolding_all decide, by with_unfolding_all decide, by with_unfolding_all decide⟩

/-- Claim C3: on every update in which `"home reached"` fires, the label
appended to the Gesture Buffer is exactly that of the one axis whose
Deviation Accumulator is strictly greater than each of the other two, and
when no accumulator is strictly greatest nothing is appended. -/
theorem dominant_axis_label (s : CollectorState) (h : (print s).2 = true) :
    ((s.max_yaw > s.max_roll ∧ s.max_yaw > s.max_pitch) →
       (print s).1.gestures = s.gestures ++ "yaw") ∧
    ((s.max_roll > s.max_yaw ∧ s.max_roll > s.max_pitch) →
       (print s).1.gestures = s.gestures ++ "roll") ∧
    ((s.max_pitch > s.max_roll ∧ s.max_pitch > s.max_yaw) →
       (print s).1.gestures = s.gestures ++ "pitch") ∧
    ((¬(s.max_yaw > s.max_roll ∧ s.max_yaw > s.max_pitch) ∧
      ¬(s.max_roll > s.max_yaw ∧ s.max_roll > s.max_pitch) ∧
      ¬(s.max_pitch > s.max_roll ∧ s.max_pitch > s.max_yaw)) →
       (print s).1.gestures = s.gestures) := by
  obtain ⟨hArm, hp1, hp2, hp3, hg, hps⟩ := fired_cases s h
  rw [hps]
  simp only [accumUpdate_gestures]
  refine ⟨?_, ?_, ?_, ?_⟩
  · rintro ⟨a, b⟩
    have nr : ¬(s.max_roll > s.max_yaw ∧ s.max_roll > s.max_pitch) := by
      rintro ⟨c, d⟩
      exact lt_asymm a c
    have np : ¬(s.max_pitch > s.max_roll ∧ s.max_pitch > s.max_yaw) := by
      rintro ⟨c, d⟩
      exact lt_asymm b d
    simp [homeReachedBranch, And.intro a b, nr, np]
  · rintro ⟨a, b⟩
    have ny : ¬(s.max_yaw > s.max_roll ∧ s.max_yaw > s.max_pitch) := by
      rintro ⟨c, d⟩
      exact lt_asymm a c
    have np : ¬(s.max_pitch > s.max_roll ∧ s.max_pitch > s.max_yaw) := by
      rintro ⟨c, d⟩
      exact lt_asymm b c
    simp [homeReachedBranch, And.intro a b, ny, np]
  · rintro ⟨a, b⟩
    have ny : ¬(s.max_yaw > s.max_roll ∧ s.max_yaw > s.max_pitch) := by
      rintro ⟨c, d⟩
      exact lt_asymm b d
    have nr : ¬(s.max_roll > s.max_yaw ∧ s.max_roll > s.max_pitch) := by
      rintro ⟨c, d⟩
      exact lt_asymm a d
    simp [homeReachedBranch, And.intro a b, ny, nr]
  · rintro ⟨ny, nr, np⟩
    simp [homeReachedBranch, ny, nr, np]

/-- Witness for `dominant_axis_label` at a concrete firing state whose roll
accumulator is the strict maximum. -/
theorem dominant_axis_label_witness :
    (print wsFired).2 = true ∧
    ((wsFired.max_roll > wsFired.max_yaw ∧ wsFired.max_roll > wsFired.max_pitch) →
       (print wsFired).1.gestures = wsFired.gestures ++ "roll") :=
  ⟨by with_unfolding_all decide,
   fun a => (dominant_axis_label wsFired (by with_unfolding_all decide)).2.1 a⟩

/-- Claim C8: on an accumulator-update step with `|yaw_w - home_yaw| = 17`,
the yaw accumulator is left unchanged while the roll and pitch accumulators
are raised to their current absolute deviations as usual. -/
theorem yaw_seventeen_excluded (s : CollectorState)
    (h : |s.yaw_w - s.home_yaw| = 17) :
    (accumUpdate s).max_yaw = s.max_yaw ∧
    (accumUpdate s).max_roll = max s.max_roll |s.roll_w - s.home_roll| ∧
    (accumUpdate s).max_pitch = max s.max_pitch |s.pitch_w - s.home_pitch| := by
  rw [accumUpdate_def]
  refine ⟨by simp [h], ?_, ?_⟩
  · rcases le_or_lt |s.roll_w - s.home_roll| s.max_roll with hle | hlt
    · simp [not_lt.mpr hle, max_eq_left hle]
    · simp [hlt, max_eq_right hlt.le]
  · rcases le_or_lt |s.pitch_w - s.home_pitch| s.max_pitch with hle | hlt
    · simp [not_lt.mpr hle, max_eq_left hle]
    · simp [hlt, max_eq_right hlt.le]

/-- Witness for `yaw_seventeen_excluded` at a concrete state with yaw
deviation exactly 17. -/
theorem yaw_seventeen_excluded_witness :
    (accumUpdate wsYaw17).max_yaw = wsYaw17.max_yaw ∧
    (accumUpdate wsYaw17).max_roll =
      max wsYaw17.max_roll |wsYaw17.roll_w - wsYaw17.home_roll| ∧
    (accumUpdate wsYaw17).max_pitch =
      max wsYaw17.max_pitch |wsYaw17.pitch_w - wsYaw17.home_pitch| :=
  yaw_seventeen_excluded wsYaw17 (by with_unfolding_all decide)

/-- Claim C9, amended: Home Reference is captured from the current
orientation on every update whose pose classification is `fist` (not only
on transitions into `fist`), the buffered gesture is committed to Word and
the Gesture Buffer is cleared. -/
theorem home_captured_on_every_fist (s : CollectorState) (r p y : ℚ)
    (hArm : s.onArm = true) :
    (update s "fist" r p y).1.home_roll = r ∧
    (update s "fist" r p y).1.home_pitch = p ∧
    (update s "fist" r p y).1.home_yaw = y ∧
    (update s "fist" r p y).1.gestures = "" ∧
    (update s "fist" r p y).1.word = s.word ++ matchLetterToGesture s.gestures := by
  simp [update, onPose, onOrientationData, print, hArm]

/-- Witness for `home_captured_on_every_fist` at `startState` with display
values `(5, 6, 7)`. -/
theorem home_captured_on_every_fist_witness :
    (update startState "fist" 5 6 7).1.home_roll = 5 ∧
    (update startState "fist" 5 6 7).1.home_pitch = 6 ∧
    (update startState "fist" 5 6 7).1.home_yaw = 7 ∧
    (update startState "fist" 5 6 7).1.gestures = "" ∧
    (update startState "fist" 5 6 7).1.word =
      startState.word ++ matchLetterToGesture startState.gestures :=
  home_captured_on_every_fist startState 5 6 7 (by with_unfolding_all decide)

/-- `update` never changes `onArm`. -/
theorem update_onArm (s : CollectorState) (pose : String) (r p y : ℚ) :
    (update s pose r p y).1.onArm = s.onArm := by
  simp only [update, onPose, onOrientationData, print]
  split_ifs <;> simp

/-- When the delivered pose is not `fist`, `update` leaves the Home
Reference untouched. -/
theorem update_home_of_ne_fist (s : CollectorState) (pose : String)
    (r p y : ℚ) (hp : pose ≠ "fist") :
    (update s pose r p y).1.home_roll = s.home_roll ∧
    (update s pose r p y).1.home_yaw = s.home_yaw ∧
    (update s pose r p y).1.home_pitch = s.home_pitch := by
  simp only [update, onPose, onOrientationData, print]
  split_ifs <;> simp_all

/-- Claim C5, amended: at the end of an update on which `"home reached"`
fires, each Deviation Accumulator equals the current absolute deviation of
the orientation from Home Reference on its axis (at most 0.7), not zero:
the reset is followed in the same update by the accumulator refresh of
lines 202-210. -/
theorem accumulators_equal_current_deviation (s : CollectorState)
    (h : (print s).2 = true) :
    (print s).1.max_roll = |s.roll_w - s.home_roll| ∧
    (print s).1.max_pitch = |s.pitch_w - s.home_pitch| ∧
    (print s).1.max_yaw = |s.yaw_w - s.home_yaw| ∧
    (print s).1.max_roll ≤ 7/10 ∧ (print s).1.max_pitch ≤ 7/10 ∧
    (print s).1.max_yaw ≤ 7/10 := by
  obtain ⟨hArm, hp1, hp2, hp3, hg, hps⟩ := fired_cases s h
  rw [Bool.and_eq_true, Bool.and_eq_true] at hg
  obtain ⟨⟨e1, e2⟩, e3⟩ := hg
  rw [epsilonCompare_true_iff] at e1 e2 e3
  rw [hps]
  have hne17 : |s.yaw_w - s.home_yaw| ≠ 17 := by
    intro heq
    rw [heq] at e3
    norm_num at e3
  have hroll : (accumUpdate (homeReachedBranch s)).max_roll =
      |s.roll_w - s.home_roll| := by
    rw [accumUpdate_def]
    rcases (abs_nonneg (s.roll_w - s.home_roll)).eq_or_lt with h0 | h0
    · simp [← h0]
    · simp [h0]
  have hpitch : (accumUpdate (homeReachedBranch s)).max_pitch =
      |s.pitch_w - s.home_pitch| := by
    rw [accumUpdate_def]
    rcases (abs_nonneg (s.pitch_w - s.home_pitch)).eq_or_lt with h0 | h0
    · simp [← h0]
    · simp [h0]
  have hyaw : (accumUpdate (homeReachedBranch s)).max_yaw =
      |s.yaw_w - s.home_yaw| := by
    rw [accumUpdate_def]
    rcases (abs_nonneg (s.yaw_w - s.home_yaw)).eq_or_lt with h0 | h0
    · simp [← h0]
    · simp [h0, hne17]
  exact ⟨hroll, hpitch, hyaw,
    by rw [hroll]; exact e1, by rw [hpitch]; exact e2, by rw [hyaw]; exact e3⟩

/-- Witness for `accumulators_equal_current_deviation` at a concrete firing
state. -/
theorem accumulators_equal_current_deviation_witness :
    (print wsFired).1.max_roll = |wsFired.roll_w - wsFired.home_roll| ∧
    (print wsFired).1.max_pitch = |wsFired.pitch_w - wsFired.home_pitch| ∧
    (print wsFired).1.max_yaw = |wsFired.yaw_w - wsFired.home_yaw| ∧
    (print wsFired).1.max_roll ≤ 7/10 ∧ (print wsFired).1.max_pitch ≤ 7/10 ∧
    (print wsFired).1.max_yaw ≤ 7/10 :=
  accumulators_equal_current_deviation wsFired (by with_unfolding_all decide)

/-- Claim C4, amended: with Home Reference set and the delivered
orientation within 0.7 display units of it on all three axes (pose in the
tracking branch), `"home reached"` fires on that update and fires again on
the immediately following update with the same in-tolerance orientation —
consecutive qualifying updates are not debounced by the state. -/
theorem fires_on_every_qualifying_update (s : CollectorState) (pose : String)
    (r p y : ℚ) (hArm : s.onArm = true) (hp1 : pose ≠ "fist")
    (hp2 : pose ≠ "fingersSpread") (hp3 : pose ≠ "waveOut")
    (hr : |r - s.home_roll| ≤ 7/10) (hp : |p - s.home_pitch| ≤ 7/10)
    (hy : |y - s.home_yaw| ≤ 7/10) :
    (update s pose r p y).2 = true ∧
    (update (update s pose r p y).1 pose r p y).2 = true := by
  have key : ∀ t : CollectorState, t.onArm = true →
      t.home_roll = s.home_roll → t.home_pitch = s.home_pitch →
      t.home_yaw = s.home_yaw → (update t pose r p y).2 = true := by
    intro t ht hr1 hp1' hy1
    have hArm' : (onPose (onOrientationData t r p y) pose).onArm = true := ht
    have hcp : (onPose (onOrientationData t r p y) pose).currentPose = pose :=
      rfl
    rw [update, print_else _ hArm' (by rw [hcp]; exact hp1)
      (by rw [hcp]; exact hp2) (by rw [hcp]; exact hp3)]
    have g1 : epsilonCompare (onPose (onOrientationData t r p y) pose).roll_w
        (onPose (onOrientationData t r p y) pose).home_roll (7/10) = true := by
      rw [epsilonCompare_true_iff]
      show |r - t.home_roll| ≤ 7/10
      rw [hr1]
      exact hr
    have g2 : epsilonCompare (onPose (onOrientationData t r p y) pose).pitch_w
        (onPose (onOrientationData t r p y) pose).home_pitch (7/10) = true := by
      rw [epsilonCompare_true_iff]
      show |p - t.home_pitch| ≤ 7/10
      rw [hp1']
      exact hp
    have g3 : epsilonCompare (onPose (onOrientationData t r p y) pose).yaw_w
        (onPose (onOrientationData t r p y) pose).home_yaw (7/10) = true := by
      rw [epsilonCompare_true_iff]
      show |y - t.home_yaw| ≤ 7/10
      rw [hy1]
      exact hy
    simp [g1, g2, g3]
  refine ⟨key s hArm rfl rfl rfl, ?_⟩
  obtain ⟨u1, u2, u3⟩ := update_home_of_ne_fist s pose r p y hp1
  exact key (update s pose r p y).1 (by rw [update_onArm]; exact hArm) u1 u3 u2

/-- Witness for `fires_on_every_qualifying_update` at a concrete state with
home `(9, 9, 9)` and orientation `(9, 9, 9)`. -/
theorem fires_on_every_qualifying_update_witness :
    (update wsFired "rest" 9 9 9).2 = true ∧
    (update (update wsFired "rest" 9 9 9).1 "rest" 9 9 9).2 = true :=
  fires_on_every_qualifying_update wsFired "rest" 9 9 9
    (by with_unfolding_all decide) (by with_unfolding_all decide)
    (by with_unfolding_all decide) (by with_unfolding_all decide)
    (by with_unfolding_all decide) (by with_unfolding_all decide)
    (by with_unfolding_all decide)

/-- A single update never reports `"home reached"` while the home roll
reference is still at its sentinel `-1`, as long as the delivered roll
display value is nonnegative. -/
theorem update_not_fired_of_home_unset (s : CollectorState) (pose : String)
    (r p y : ℚ) (h1 : s.home_roll = -1) (hr0 : 0 ≤ r) :
    (update s pose r p y).2 = false := by
  by_cases hArm : s.onArm = true
  case neg => simp [update, onPose, onOrientationData, print, hArm]
  by_cases hp1 : pose = "fist"
  case pos => simp [update, onPose, onOrientationData, print, hArm, hp1]
  by_cases hp2 : pose = "fingersSpread"
  case pos => simp [update, onPose, onOrientationData, print, hArm, hp1, hp2]
  by_cases hp3 : pose = "waveOut"
  case pos =>
    simp [update, onPose, onOrientationData, print, hArm, hp1, hp2, hp3]
  have hArm' : (onPose (onOrientationData s r p y) pose).onArm = true := hArm
  have hcp : (onPose (onOrientationData s r p y) pose).currentPose = pose := rfl
  rw [update, print_else _ hArm' (by rw [hcp]; exact hp1)
    (by rw [hcp]; exact hp2) (by rw [hcp]; exact hp3)]
  have g1 : epsilonCompare (onPose (onOrientationData s r p y) pose).roll_w
      (onPose (onOrientationData s r p y) pose).home_roll (7/10) = false := by
    rw [Bool.eq_false_iff]
    intro ht
    rw [epsilonCompare_true_iff] at ht
    have ht' : |r - s.home_roll| ≤ 7/10 := ht
    rw [h1] at ht'
    rw [abs_of_nonneg (by linarith : (0:ℚ) ≤ r - (-1))] at ht'
    linarith
  simp [g1]

/-- The home-unset induction behind claim C6, over an arbitrary fist-free
input trace. -/
theorem never_fires_aux (tr : List (String × ℚ × ℚ × ℚ)) :
    ∀ s : CollectorState, s.home_roll = -1 →
      (∀ e ∈ tr, e.1 ≠ "fist" ∧ 0 ≤ e.2.1) →
      ∀ b ∈ firedRun s tr, b = false := by
  induction tr with
  | nil =>
    intro s _ _ b hb
    simp [firedRun] at hb
  | cons e rest ih =>
    obtain ⟨pose, r, p, y⟩ := e
    intro s h1 htr b hb
    obtain ⟨hpose, hr0⟩ := htr _ (List.mem_cons_self _ _)
    rw [firedRun] at hb
    rcases List.mem_cons.mp hb with rfl | hmem
    · exact update_not_fired_of_home_unset s pose r p y h1 hr0
    · obtain ⟨u1, u2, u3⟩ := update_home_of_ne_fist s pose r p y hpose
      exact ih (update s pose r p y).1 (u1.trans h1)
        (fun e he => htr e (List.mem_cons_of_mem _ he)) b hmem

/-- Claim C6: while Home Reference is still at its sentinel `(-1, -1, -1)`
(no fist processed: the trace is fist-free), the `"home reached"` branch
never fires on any update, for any orientation display values the decoder
can produce (all three components in `[0, 18]`). -/
theorem never_fires_while_home_unset (s : CollectorState)
    (tr : List (String × ℚ × ℚ × ℚ))
    (h1 : s.home_roll = -1) (h2 : s.home_yaw = -1) (h3 : s.home_pitch = -1)
    (htr : ∀ e ∈ tr, e.1 ≠ "fist" ∧
        0 ≤ e.2.1 ∧ e.2.1 ≤ 18 ∧ 0 ≤ e.2.2.1 ∧ e.2.2.1 ≤ 18 ∧
        0 ≤ e.2.2.2 ∧ e.2.2.2 ≤ 18) :
    ∀ b ∈ firedRun s tr, b = false :=
  never_fires_aux tr s h1
    (fun e he => ⟨(htr e he).1, (htr e he).2.1⟩)

/-- Witness for `never_fires_while_home_unset` on the concrete fist-free
trace `noFistTrace` from `startState`: no update fires. -/
theorem never_fires_while_home_unset_witness :
    firedRun startState noFistTrace = [false, false] := by
  have h := never_fires_while_home_unset startState noFistTrace
    (by with_unfolding_all decide) (by with_unfolding_all decide)
    (by with_unfolding_all decide) (by with_unfolding_all decide)
  have hsh : firedRun startState noFistTrace =
      [(update startState "rest" 9 9 9).2,
       (update (update startState "rest" 9 9 9).1 "waveIn" 0 18 5).2] := rfl
  rw [hsh,
    h (update startState "rest" 9 9 9).2
      (by rw [hsh]; exact List.mem_cons_self _ _),
    h (update (update startState "rest" 9 9 9).1 "waveIn" 0 18 5).2
      (by rw [hsh]; exact List.mem_cons_of_mem _ (List.mem_cons_self _ _))]

/-- Claim C10: a non-empty gesture string that is not a key of the letter
table looks up to the empty string, so a fist commit with such a Gesture
Buffer appends nothing to Word. -/
theorem unknown_gesture_commits_nothing (g : String) (hne : g ≠ "")
    (hmem : g ∉ ["pitchyawpitch", "rollpitch", "roll", "rollpitchyaw",
        "pitchpitchyaw", "pitchroll", "yawpitchyaw", "yawpitchroll",
        "pitchyawyaw"])
    (s : CollectorState) (hArm : s.onArm = true)
    (hpose : s.currentPose = "fist") (hg : s.gestures = g) :
    matchLetterToGesture g = "" ∧ (print s).1.word = s.word := by
  simp only [List.mem_cons, List.not_mem_nil, or_false, not_or] at hmem
  obtain ⟨n1, n2, n3, n4, n5, n6, n7, n8, n9⟩ := hmem
  have hlook : matchLetterToGesture g = "" := by
    simp [matchLetterToGesture, letterMap, mapInsert, mapLookup,
      Ne.symm hne, Ne.symm n1, Ne.symm n2, Ne.symm n3, Ne.symm n4,
      Ne.symm n5, Ne.symm n6, Ne.symm n7, Ne.symm n8, Ne.symm n9]
  refine ⟨hlook, ?_⟩
  rw [print_fist s hArm hpose]
  show s.word ++ matchLetterToGesture s.gestures = s.word
  rw [hg, hlook, String.append_empty]

/-- Witness for `unknown_gesture_commits_nothing` at the buffer `"yawroll"`
(two valid labels in an order the table does not contain). -/
theorem unknown_gesture_commits_nothing_witness :
    matchLetterToGesture "yawroll" = "" ∧
    (print wsUnknown).1.word = wsUnknown.word :=
  unknown_gesture_commits_nothing "yawroll" (by with_unfolding_all decide)
    (by with_unfolding_all decide) wsUnknown (by with_unfolding_all decide)
    (by with_unfolding_all decide) (by with_unfolding_all decide)

/-- Linear rescaling of an angle in `[-π, π]` onto the display range. -/
theorem scale_full_bounds (a : ℝ) (h1 : -Real.pi ≤ a) (h2 : a ≤ Real.pi) :
    0 ≤ (a + Real.pi) / (Real.pi * 2) * 18 ∧
    (a + Real.pi) / (Real.pi * 2) * 18 ≤ 18 := by
  have hπ := Real.pi_pos
  constructor
  · exact mul_nonneg (div_nonneg (by linarith) (by linarith)) (by norm_num)
  · have hd : (a + Real.pi) / (Real.pi * 2) ≤ 1 :=
      (div_le_one (by linarith)).mpr (by linarith)
    have hd0 : 0 ≤ (a + Real.pi) / (Real.pi * 2) :=
      div_nonneg (by linarith) (by linarith)
    nlinarith

/-- Linear rescaling of an angle in `[-π/2, π/2]` onto the display range. -/
theorem scale_half_bounds (a : ℝ) (h1 : -(Real.pi / 2) ≤ a)
    (h2 : a ≤ Real.pi / 2) :
    0 ≤ (a + Real.pi / 2) / Real.pi * 18 ∧
    (a + Real.pi / 2) / Real.pi * 18 ≤ 18 := by
  have hπ := Real.pi_pos
  constructor
  · exact mul_nonneg (div_nonneg (by linarith) (by linarith)) (by norm_num)
  · have hd : (a + Real.pi / 2) / Real.pi ≤ 1 :=
      (div_le_one (by linarith)).mpr (by linarith)
    have hd0 : 0 ≤ (a + Real.pi / 2) / Real.pi :=
      div_nonneg (by linarith) (by linarith)
    nlinarith

/-- Claim C2: for every unit quaternion the three display values produced
by the Orientation Decoder lie in `[0, 18]`, and the pitch arcsine argument
is clamped to `[-1, 1]`. -/
theorem decoder_display_values_bounded (w x y z : ℝ)
    (h : w ^ 2 + x ^ 2 + y ^ 2 + z ^ 2 = 1) :
    (0 ≤ roll_w_display w x y z ∧ roll_w_display w x y z ≤ 18) ∧
    (0 ≤ pitch_w_display w x y z ∧ pitch_w_display w x y z ≤ 18) ∧
    (0 ≤ yaw_w_display w x y z ∧ yaw_w_display w x y z ≤ 18) ∧
    (-1 ≤ pitchArg w x y z ∧ pitchArg w x y z ≤ 1) := by
  have hroll : -Real.pi ≤ rollAngle w x y z ∧ rollAngle w x y z ≤ Real.pi :=
    ⟨(Complex.neg_pi_lt_arg _).le, Complex.arg_le_pi _⟩
  have hyaw : -Real.pi ≤ yawAngle w x y z ∧ yawAngle w x y z ≤ Real.pi :=
    ⟨(Complex.neg_pi_lt_arg _).le, Complex.arg_le_pi _⟩
  have hpitch : -(Real.pi / 2) ≤ pitchAngle w x y z ∧
      pitchAngle w x y z ≤ Real.pi / 2 :=
    ⟨Real.neg_pi_div_two_le_arcsin _, Real.arcsin_le_pi_div_two _⟩
  refine ⟨scale_full_bounds _ hroll.1 hroll.2, scale_half_bounds _ hpitch.1 hpitch.2,
    scale_full_bounds _ hyaw.1 hyaw.2, le_max_left _ _,
    max_le (by norm_num) (min_le_left _ _)⟩

/-- Witness for `decoder_display_values_bounded` at the identity quaternion
`(1, 0, 0, 0)`. -/
theorem decoder_display_values_bounded_witness :
    (0 ≤ roll_w_display 1 0 0 0 ∧ roll_w_display 1 0 0 0 ≤ 18) ∧
    (0 ≤ pitch_w_display 1 0 0 0 ∧ pitch_w_display 1 0 0 0 ≤ 18) ∧
    (0 ≤ yaw_w_display 1 0 0 0 ∧ yaw_w_display 1 0 0 0 ≤ 18) ∧
    (-1 ≤ pitchArg 1 0 0 0 ∧ pitchArg 1 0 0 0 ≤ 1) :=
  decoder_display_values_bounded 1 0 0 0 (by norm_num)

end HelloMyo
